import Mathlib

/-
Verification development for the ECE361 lab4 text-chat relay
(src/lab4/server.c and src/lab4/client.c).

The server keeps two file-scope linked lists: client_list (one node per
accepted connection, holding sockfd, id and current session) and
session_list (active session names).  Each connection runs handle_client,
which reads colon-delimited frames and dispatches them to process_message.
The embedding below models one node per connection, the two lists, and the
per-frame processing as a pure state transition that also returns the list
of (sockfd, frame) writes the server performs.  Fixed-size C buffers
(MAX_NAME 50, MAX_DATA 1024, 2048-byte lines) are modelled as unbounded
strings; all claims quantify over identifiers and payloads within those
bounds, where strncpy/snprintf do not truncate.
-/

namespace Chat

/-- Message type codes, from the #define block shared by server.c and
client.c. -/
def LOGIN : Nat := 1

def LO_ACK : Nat := 2

def LO_NAK : Nat := 3

def EXIT : Nat := 4

def JOIN : Nat := 5

def JN_ACK : Nat := 6

def JN_NAK : Nat := 7

def LEAVE_SESS : Nat := 8

def NEW_SESS : Nat := 9

def NS_ACK : Nat := 10

def MESSAGE : Nat := 11

def QUERY : Nat := 12

def QU_ACK : Nat := 13

/-- struct message: type, size, source identifier, payload. -/
structure Message where
  type : Nat
  size : Nat
  source : String
  data : String
deriving DecidableEq, Repr

/-- client_t: one node of client_list.  sockfd is the connection handle
(unique per live connection), id is set by a successful LOGIN (empty
before that), session is the current session name (empty when none). -/
structure Client where
  sockfd : Nat
  id : String
  session : String
deriving DecidableEq, Repr

/-- The two file-scope registries of server.c: client_list and
session_list (both prepend on insert). -/
structure ServerState where
  clients : List Client
  sessions : List String
deriving DecidableEq, Repr

/-- allowed_users: the static credential table. -/
def allowed_users : List (String × String) := [("ken", "12345"), ("andy", "12345")]

/-- is_valid_user: some credential-table entry matches both id and
password (strcmp equality). -/
def is_valid_user (id : String) (password : String) : Bool :=
  allowed_users.any (fun u => u.1 == id && u.2 == password)

/-- is_already_logged_in: some node of client_list has this id. -/
def is_already_logged_in (s : ServerState) (id : String) : Bool :=
  s.clients.any (fun c => c.id == id)

/-- find_session: session_list holds this name (first strcmp match). -/
def find_session (s : ServerState) (session_id : String) : Bool :=
  s.sessions.any (fun x => x == session_id)

/-- session_has_clients: some node of client_list has this session. -/
def session_has_clients (s : ServerState) (session_id : String) : Bool :=
  s.clients.any (fun c => c.session == session_id)

/-- remove_session_if_empty: no-op if some client still references the
name, else unlink the first matching session node. -/
def remove_session_if_empty (s : ServerState) (session_id : String) : ServerState :=
  if session_has_clients s session_id then s
  else { s with sessions := s.sessions.erase session_id }

/-- In-place mutation through the client_t pointer: update the (unique)
node of client_list whose sockfd matches. -/
def updateClient : List Client → Nat → (Client → Client) → List Client
  | [], _, _ => []
  | c :: rest, fd, f => if c.sockfd = fd then f c :: rest else c :: updateClient rest fd f

/-- Dereferencing the client_t pointer for connection fd: the first node
of client_list with that sockfd. -/
def findClientIn : List Client → Nat → Option Client
  | [], _ => none
  | c :: rest, fd => if c.sockfd = fd then some c else findClientIn rest fd

def findClient (s : ServerState) (fd : Nat) : Option Client :=
  findClientIn s.clients fd

/-- broadcast_message: walk client_list and write the frame to every node
whose session matches and whose id differs from the sender. -/
def broadcast_message : List Client → String → Message → String → List (Nat × Message)
  | [], _, _, _ => []
  | c :: rest, session_id, msg, sender =>
      if c.session == session_id && c.id != sender then
        (c.sockfd, msg) :: broadcast_message rest session_id msg sender
      else
        broadcast_message rest session_id msg sender

/-- A reply built by process_message: memset to zero, source "server",
data set by snprintf, size = strlen(data) (EXIT leaves both at zero,
matching size = length of the empty payload). -/
def serverReply (t : Nat) (d : String) : Message :=
  { type := t, size := d.length, source := "server", data := d }

/-- One client entry of the QUERY listing: "%s (session: %s), " with
"None" substituted for an empty session. -/
def clientEntry (c : Client) : String :=
  c.id ++ " (session: " ++ (if c.session ≠ "" then c.session else "None") ++ "), "

/-- The QU_ACK payload assembled by the QUERY case: "Clients: " plus one
entry per client_list node, then " Sessions: " plus each session name
followed by ", ". -/
def queryData (s : ServerState) : String :=
  s.sessions.foldl (fun acc x => acc ++ x ++ ", ")
    ((s.clients.foldl (fun acc c => acc ++ clientEntry c) "Clients: ") ++ " Sessions: ")

/-- process_message: dispatch one decoded frame for the connection whose
client_t node has sockfd = fd.  Returns the new registries and the list
of (sockfd, frame) writes performed.  Mirrors the switch in server.c,
including the two removal slips: the EXIT case clears client->session
first and then calls remove_session_if_empty on the now-empty string, and
the LEAVE_SESS case calls remove_session_if_empty on the frame payload
msg->data rather than on the vacated session name. -/
def processMessage (s : ServerState) (fd : Nat) (msg : Message) :
    ServerState × List (Nat × Message) :=
  match findClient s fd with
  | none => (s, [])
  | some c =>
    if msg.type = LOGIN then
      if is_valid_user msg.source msg.data && !is_already_logged_in s msg.source then
        ({ s with clients := updateClient s.clients fd (fun e => { e with id := msg.source }) },
         [(fd, serverReply LO_ACK "Login successful")])
      else
        (s, [(fd, serverReply LO_NAK "Invalid credentials or already logged in")])
    else if msg.type = EXIT then
      let s1 :=
        if c.session ≠ "" then
          remove_session_if_empty
            { s with clients := updateClient s.clients fd (fun e => { e with session := "" }) } ""
        else s
      (s1, [(fd, serverReply EXIT "")])
    else if msg.type = JOIN then
      if find_session s msg.data = false then
        (s, [(fd, serverReply JN_NAK "Session does not exist")])
      else if c.session ≠ "" then
        (s, [(fd, serverReply JN_NAK "Already in a session")])
      else
        ({ s with clients := updateClient s.clients fd (fun e => { e with session := msg.data }) },
         [(fd, serverReply JN_ACK "Joined session")])
    else if msg.type = NEW_SESS then
      if c.session ≠ "" then
        (s, [(fd, serverReply NS_ACK "Already in a session")])
      else if find_session s msg.data then
        (s, [(fd, serverReply NS_ACK "Session already exists")])
      else
        ({ clients := updateClient s.clients fd (fun e => { e with session := msg.data }),
           sessions := msg.data :: s.sessions },
         [(fd, serverReply NS_ACK "Session created")])
    else if msg.type = LEAVE_SESS then
      if c.session = "" then
        (s, [(fd, serverReply LEAVE_SESS "Not in a session")])
      else
        (remove_session_if_empty
           { s with clients := updateClient s.clients fd (fun e => { e with session := "" }) }
           msg.data,
         [(fd, serverReply LEAVE_SESS "Left session")])
    else if msg.type = MESSAGE then
      if c.session ≠ "" then (s, broadcast_message s.clients c.session msg c.id)
      else (s, [])
    else if msg.type = QUERY then
      (s, [(fd, serverReply QU_ACK (queryData s))])
    else
      (s, [])

/-- handle_client before the read loop: malloc a node with empty id and
session and add_client it (prepend to client_list). -/
def connectClient (s : ServerState) (fd : Nat) : ServerState :=
  { s with clients := { sockfd := fd, id := "", session := "" } :: s.clients }

/-- remove_client: unlink the node (pointer identity; the unique node
with this sockfd). -/
def removeClientFd : List Client → Nat → List Client
  | [], _ => []
  | c :: rest, fd => if c.sockfd = fd then rest else c :: removeClientFd rest fd

/-- handle_client after the read loop ends: remove_client and free. -/
def disconnectClient (s : ServerState) (fd : Nat) : ServerState :=
  { s with clients := removeClientFd s.clients fd }

/-- The LEAVE_SESS frame built by the reference client
(handle_leave_session): empty payload, size 0. -/
def leaveFrame (cid : String) : Message :=
  { type := LEAVE_SESS, size := 0, source := cid, data := "" }

/-- The EXIT frame built by the reference client (handle_logout): empty
payload, size 0. -/
def exitFrame (cid : String) : Message :=
  { type := EXIT, size := 0, source := cid, data := "" }

/-! Wire codec.  send_message_to_client / send_message render a frame
with snprintf as "%u:%u:%s:%s\n"; read_line takes bytes up to (and
dropping) the first newline; the receive loops parse the buffer with
sscanf "%u:%u:%[^:]:%[^\n]" and treat fewer than three converted fields
as a malformed frame. -/

/-- The numeric value accumulated by a %u conversion over a digit run. -/
def digitsVal (cs : List Char) : Nat :=
  cs.foldl (fun n c => 10 * n + (c.toNat - 48)) 0

/-- Decimal rendering of an unsigned value as printed by %u, structured
with fuel so that the kernel can evaluate it; fuel n + 1 always
suffices. -/
def natDecimalAux : Nat → Nat → List Char
  | 0, _ => []
  | fuel + 1, n =>
    if n < 10 then [Nat.digitChar n]
    else natDecimalAux fuel (n / 10) ++ [Nat.digitChar (n % 10)]

def natDecimal (n : Nat) : List Char :=
  natDecimalAux (n + 1) n

/-- The bytes written for one frame: "%u:%u:%s:%s\n". -/
def encodeLine (m : Message) : List Char :=
  natDecimal m.type ++ ':' :: (natDecimal m.size ++ ':' :: (m.source.data ++ ':' :: (m.data.data ++ ['\n'])))

/-- read_line: the buffer handed to sscanf is the stream up to, and not
including, the first newline. -/
def readLineBuf (stream : List Char) : List Char :=
  stream.takeWhile (fun c => c ≠ '\n')

/-- The C isspace set consulted by the %u whitespace skip: space,
horizontal tab, newline, vertical tab, form feed, carriage return. -/
def isSpace (c : Char) : Bool :=
  c = ' ' || c = '\t' || c = '\n' || c = '\x0b' || c = '\x0c' || c = '\r'

/-- The value a %u conversion stores.  A plain digit run keeps its exact
numeral, which is the stored value for every number an unsigned int can
carry — the whole domain the program itself can emit or hold in the
struct field (digit runs beyond that are conversions the C standard
leaves undefined, completed here by the numeral itself).  A minus-signed
run follows strtoul: the value is negated in unsigned long (64-bit)
arithmetic and the store into the unsigned int field truncates mod 2^32,
which is what decides which process_message branch a signed line
reaches. -/
def scanUVal (neg : Bool) (v : Nat) : Nat :=
  if neg then (2 ^ 64 - v % 2 ^ 64) % 2 ^ 64 % 2 ^ 32 else v

/-- The digit run of a %u conversion, after any sign: at least one digit
is required, the run is converted, and the rest of the buffer is
returned. -/
def scanDigits (neg : Bool) (cs : List Char) : Option (Nat × List Char) :=
  let t := cs.takeWhile (fun c => c.isDigit)
  if t = [] then none
  else some (scanUVal neg (digitsVal t), cs.dropWhile (fun c => c.isDigit))

/-- One %u directive: skip isspace characters, accept one optional plus
or minus sign (strtoul semantics), then require at least one digit. -/
def scanU (cs : List Char) : Option (Nat × List Char) :=
  match cs.dropWhile (fun c => isSpace c) with
  | [] => none
  | c0 :: cs1 =>
    if c0 = '+' then scanDigits false cs1
    else if c0 = '-' then scanDigits true cs1
    else scanDigits false (c0 :: cs1)

/-- sscanf "%u:%u:%[^:]:%[^\n]" over the received buffer.  Each %u skips
isspace characters, accepts an optional sign and needs at least one
digit; each literal colon must match the next character exactly; %[^:]
and %[^\n] need at least one character.  none is returned exactly when
fewer than three conversions succeed (the "Malformed message" path);
when only the first three succeed the payload stays at the memset
default, the empty string. -/
def parseFrame (cs : List Char) : Option Message :=
  match scanU cs with
  | none => none
  | some (tv, r0) =>
    match r0 with
    | [] => none
    | c1 :: cs1 =>
      if c1 ≠ ':' then none
      else
        match scanU cs1 with
        | none => none
        | some (zv, r1) =>
          match r1 with
          | [] => none
          | c2 :: cs2 =>
            if c2 ≠ ':' then none
            else
              let src := cs2.takeWhile (fun c => c ≠ ':')
              if src = [] then none
              else
                match cs2.dropWhile (fun c => c ≠ ':') with
                | [] =>
                  some { type := tv, size := zv, source := String.mk src, data := "" }
                | _ :: cs3 =>
                  some { type := tv, size := zv, source := String.mk src,
                         data := String.mk (cs3.takeWhile (fun c => c ≠ '\n')) }

/-- One iteration of the handle_client read loop on the buffer read_line
produced.  An empty buffer means read_line returned zero (a bare newline
or end of stream): the while guard fails, nothing is processed and the
loop ends.  Otherwise a malformed frame is discarded and the loop
continues, and a parsed frame is processed with the loop continuing
unless its type is EXIT.  Returns (registries, writes, whether the loop
continues). -/
def handleLine (s : ServerState) (fd : Nat) (buf : List Char) :
    ServerState × List (Nat × Message) × Bool :=
  if buf = [] then (s, [], false)
  else
    match parseFrame buf with
    | none => (s, [], true)
    | some msg =>
      let r := processMessage s fd msg
      (r.1, r.2, !(msg.type == EXIT))

/-! Client-side controller state (client.c globals) and the per-frame
switch of receive_handler.  Only JN_ACK, JN_NAK and NS_ACK mutate the
globals; the printing-only cases leave the state unchanged. -/

structure ClientState where
  loggedIn : Bool
  current_session : String
  pending_session : String
  client_id : String
deriving DecidableEq, Repr

/-- receive_handler switch on one parsed frame: JN_ACK promotes pending
to current and clears pending; JN_NAK clears pending; NS_ACK promotes
exactly when the payload is "Session created" and clears pending either
way; every other type only prints. -/
def receive_step (st : ClientState) (msg : Message) : ClientState :=
  if msg.type = JN_ACK then
    { st with current_session := st.pending_session, pending_session := "" }
  else if msg.type = JN_NAK then
    { st with pending_session := "" }
  else if msg.type = NS_ACK then
    if msg.data = "Session created" then
      { st with current_session := st.pending_session, pending_session := "" }
    else
      { st with pending_session := "" }
  else st

/-- Invariant I1 of the spec, on the embedded registry: an earlier node
with a non-empty identifier differs in identifier from every later
node — no two registered clients share a non-empty id. -/
def IdOk (a b : Client) : Prop := a.id = "" ∨ a.id ≠ b.id

def uniqueLoggedIn (s : ServerState) : Prop := s.clients.Pairwise IdOk

instance (a b : Client) : Decidable (IdOk a b) := by
  unfold IdOk
  infer_instance

instance (s : ServerState) : Decidable (uniqueLoggedIn s) := by
  unfold uniqueLoggedIn
  infer_instance

/-- Overwrite the identifier of connection fd, which is exactly the
registry effect of a successful LOGIN; used to compare processing with
and without a completed login. -/
def setId (s : ServerState) (fd : Nat) (i : String) : ServerState :=
  { s with clients := updateClient s.clients fd (fun e => { e with id := i }) }

/-! Theorems. -/

theorem mem_updateClient {cs : List Client} {fd : Nat} {f : Client → Client} {b : Client}
    (hb : b ∈ updateClient cs fd f) : b ∈ cs ∨ ∃ b0 ∈ cs, b = f b0 := by
  induction cs with
  | nil => simp [updateClient] at hb
  | cons c rest ih =>
    simp only [updateClient] at hb
    split at hb
    · rcases List.mem_cons.mp hb with h | h
      · exact Or.inr ⟨c, List.mem_cons_self c rest, h⟩
      · exact Or.inl (List.mem_cons_of_mem _ h)
    · rcases List.mem_cons.mp hb with h | h
      · exact Or.inl (h ▸ List.mem_cons_self c rest)
      · rcases ih h with h2 | ⟨b0, hb0, he⟩
        · exact Or.inl (List.mem_cons_of_mem _ h2)
        · exact Or.inr ⟨b0, List.mem_cons_of_mem _ hb0, he⟩

theorem findClientIn_updateClient (cs : List Client) (fd : Nat) (f : Client → Client)
    (hf : ∀ c, (f c).sockfd = c.sockfd) :
    findClientIn (updateClient cs fd f) fd = (findClientIn cs fd).map f := by
  induction cs with
  | nil => rfl
  | cons c rest ih =>
    simp only [updateClient]
    by_cases h : c.sockfd = fd
    · simp [findClientIn, h, hf]
    · simp [findClientIn, h, ih]

theorem updateClient_updateClient (cs : List Client) (fd : Nat) (f g : Client → Client)
    (hf : ∀ c, (f c).sockfd = c.sockfd) :
    updateClient (updateClient cs fd f) fd g = updateClient cs fd (fun c => g (f c)) := by
  induction cs with
  | nil => rfl
  | cons c rest ih =>
    simp only [updateClient]
    by_cases h : c.sockfd = fd
    · simp [updateClient, h, hf]
    · simp [updateClient, h, ih]

theorem updateClient_length (cs : List Client) (fd : Nat) (f : Client → Client) :
    (updateClient cs fd f).length = cs.length := by
  induction cs with
  | nil => rfl
  | cons c rest ih =>
    simp only [updateClient]
    by_cases h : c.sockfd = fd <;> simp [h, ih]

theorem any_session_updateClient (cs : List Client) (fd : Nat) (f : Client → Client)
    (hf : ∀ c, (f c).session = c.session) (p : String) :
    (updateClient cs fd f).any (fun c => c.session == p) = cs.any (fun c => c.session == p) := by
  induction cs with
  | nil => rfl
  | cons c rest ih =>
    simp only [updateClient]
    by_cases h : c.sockfd = fd <;> simp [h, hf, ih]

theorem clients_remove_session_if_empty (s : ServerState) (d : String) :
    (remove_session_if_empty s d).clients = s.clients := by
  unfold remove_session_if_empty
  split <;> rfl

theorem broadcast_eq_filter (cs : List Client) (sid : String) (msg : Message) (sender : String) :
    broadcast_message cs sid msg sender
      = (cs.filter (fun d => d.session == sid && d.id != sender)).map (fun d => (d.sockfd, msg)) := by
  induction cs with
  | nil => rfl
  | cons c rest ih =>
    simp only [broadcast_message, List.filter_cons]
    by_cases h : (c.session == sid && c.id != sender) = true <;> simp [h, ih]

theorem pairwise_updateClient_id_pres (cs : List Client) (fd : Nat) (f : Client → Client)
    (hf : ∀ c, (f c).id = c.id) (hp : cs.Pairwise IdOk) :
    (updateClient cs fd f).Pairwise IdOk := by
  induction cs with
  | nil => simp [updateClient]
  | cons c rest ih =>
    rcases List.pairwise_cons.mp hp with ⟨hc, hrest⟩
    simp only [updateClient]
    split
    · refine List.pairwise_cons.mpr ⟨fun b hb => ?_, hrest⟩
      unfold IdOk
      rw [hf]
      exact hc b hb
    · refine List.pairwise_cons.mpr ⟨fun b hb => ?_, ih hrest⟩
      rcases mem_updateClient hb with h | ⟨b0, hb0, rfl⟩
      · exact hc b h
      · have h0 := hc b0 hb0
        unfold IdOk at h0 ⊢
        rw [hf]
        exact h0

theorem pairwise_login_update (cs : List Client) (fd : Nat) (src : String)
    (hal : ∀ c ∈ cs, c.id ≠ src) (hp : cs.Pairwise IdOk) :
    (updateClient cs fd (fun e => { e with id := src })).Pairwise IdOk := by
  induction cs with
  | nil => simp [updateClient]
  | cons c rest ih =>
    rcases List.pairwise_cons.mp hp with ⟨hc, hrest⟩
    have hal_rest : ∀ b ∈ rest, b.id ≠ src := fun b hb => hal b (List.mem_cons_of_mem _ hb)
    simp only [updateClient]
    split
    · refine List.pairwise_cons.mpr ⟨fun b hb => ?_, hrest⟩
      by_cases hsrc : src = ""
      · exact Or.inl hsrc
      · exact Or.inr fun he => hal_rest b hb he.symm
    · refine List.pairwise_cons.mpr ⟨fun b hb => ?_, ih hal_rest hrest⟩
      rcases mem_updateClient hb with h | ⟨b0, hb0, rfl⟩
      · exact hc b h
      · exact Or.inr (hal c (List.mem_cons_self c rest))

theorem removeClientFd_sublist (cs : List Client) (fd : Nat) :
    (removeClientFd cs fd).Sublist cs := by
  induction cs with
  | nil => simp [removeClientFd]
  | cons c rest ih =>
    simp only [removeClientFd]
    by_cases h : c.sockfd = fd
    · simp only [if_pos h]
      exact (List.sublist_cons_self c rest)
    · simp only [if_neg h]
      exact ih.cons₂ c

theorem findClient_setId (s : ServerState) (fd : Nat) (i : String) (c : Client)
    (hc : findClient s fd = some c) :
    findClient (setId s fd i) fd = some { c with id := i } := by
  show findClientIn (updateClient s.clients fd _) fd = _
  rw [findClientIn_updateClient s.clients fd (fun e => { e with id := i }) (fun e => rfl)]
  rw [show findClientIn s.clients fd = some c from hc]
  rfl

theorem remove_after_clear_setId (s : ServerState) (fd : Nat) (i d : String) :
    remove_session_if_empty
        { s with clients := (updateClient (updateClient s.clients fd (fun e => { e with id := i }))
            fd (fun e => { e with session := "" })) } d
      = setId (remove_session_if_empty
          { s with clients := updateClient s.clients fd (fun e => { e with session := "" }) } d)
          fd i := by
  have h1 : (updateClient (updateClient s.clients fd (fun e => { e with id := i })) fd
        (fun e => { e with session := "" }))
      = (updateClient (updateClient s.clients fd (fun e => { e with session := "" })) fd
        (fun e => { e with id := i })) := by
    rw [updateClient_updateClient s.clients fd (fun e => { e with id := i })
        (fun e => { e with session := "" }) (fun e => rfl),
      updateClient_updateClient s.clients fd (fun e => { e with session := "" })
        (fun e => { e with id := i }) (fun e => rfl)]
  rw [h1]
  have h2 : session_has_clients
        { s with clients := (updateClient (updateClient s.clients fd
            (fun e => { e with session := "" })) fd (fun e => { e with id := i })) } d
      = session_has_clients
        { s with clients := updateClient s.clients fd (fun e => { e with session := "" }) } d := by
    simp only [session_has_clients]
    exact any_session_updateClient
      (updateClient s.clients fd (fun e => { e with session := "" })) fd
      (fun e => { e with id := i }) (fun e => rfl) d
  unfold remove_session_if_empty
  rw [h2]
  by_cases h3 : session_has_clients
      { s with clients := updateClient s.clients fd (fun e => { e with session := "" }) } d
  · simp [h3, setId]
  · simp [h3, setId]

theorem takeWhile_append_stop {p : Char → Bool} (xs : List Char) (y : Char) (ys : List Char)
    (h : ∀ x ∈ xs, p x = true) (hy : p y = false) :
    (xs ++ y :: ys).takeWhile p = xs := by
  induction xs with
  | nil => simp [List.takeWhile_cons, hy]
  | cons a as ih =>
    have ha := h a (List.mem_cons_self a as)
    simp [List.takeWhile_cons, ha, ih (fun x hx => h x (List.mem_cons_of_mem _ hx))]

theorem dropWhile_append_stop {p : Char → Bool} (xs : List Char) (y : Char) (ys : List Char)
    (h : ∀ x ∈ xs, p x = true) (hy : p y = false) :
    (xs ++ y :: ys).dropWhile p = y :: ys := by
  induction xs with
  | nil => simp [List.dropWhile_cons, hy]
  | cons a as ih =>
    have ha := h a (List.mem_cons_self a as)
    simp [List.dropWhile_cons, ha, ih (fun x hx => h x (List.mem_cons_of_mem _ hx))]

theorem takeWhile_eq_self_of_all {p : Char → Bool} (xs : List Char)
    (h : ∀ x ∈ xs, p x = true) : xs.takeWhile p = xs := by
  induction xs with
  | nil => rfl
  | cons a as ih =>
    have ha := h a (List.mem_cons_self a as)
    simp [List.takeWhile_cons, ha, ih (fun x hx => h x (List.mem_cons_of_mem _ hx))]

theorem digitChar_isDigit {d : Nat} (h : d < 10) : (Nat.digitChar d).isDigit = true := by
  interval_cases d <;> decide

theorem digitChar_toNat {d : Nat} (h : d < 10) : (Nat.digitChar d).toNat = 48 + d := by
  interval_cases d <;> decide

theorem space_not_digit {c : Char} (h : isSpace c = true) : c.isDigit = false := by
  have h2 : ((((c = ' ' ∨ c = '\t') ∨ c = '\n') ∨ c = '\x0b') ∨ c = '\x0c') ∨ c = '\r' := by
    simpa [isSpace] using h
  rcases h2 with ((((rfl | rfl) | rfl) | rfl) | rfl) | rfl <;> decide

theorem digit_not_isSpace {c : Char} (h : c.isDigit = true) : isSpace c = false := by
  cases hs : isSpace c
  · rfl
  · rw [space_not_digit hs] at h
    exact absurd h (by simp)

theorem isDigit_ne_plus {c : Char} (h : c.isDigit = true) : c ≠ '+' := by
  rintro rfl
  exact absurd h (by decide)

theorem isDigit_ne_minus {c : Char} (h : c.isDigit = true) : c ≠ '-' := by
  rintro rfl
  exact absurd h (by decide)

theorem isDigit_ne_colon {c : Char} (h : c.isDigit = true) : c ≠ ':' := by
  rintro rfl
  exact absurd h (by decide)

theorem isDigit_ne_newline {c : Char} (h : c.isDigit = true) : c ≠ '\n' := by
  rintro rfl
  exact absurd h (by decide)

theorem natDecimalAux_digits :
    ∀ fuel n, n < fuel → ∀ c ∈ natDecimalAux fuel n, c.isDigit = true := by
  intro fuel
  induction fuel with
  | zero => intro n h; exact absurd h (Nat.not_lt_zero n)
  | succ fuel ih =>
    intro n h c hcm
    simp only [natDecimalAux] at hcm
    split at hcm
    · next h10 =>
      simp only [List.mem_singleton] at hcm
      subst hcm
      exact digitChar_isDigit h10
    · next h10 =>
      rcases List.mem_append.mp hcm with h1 | h1
      · have hdiv : n / 10 < fuel :=
          Nat.lt_of_lt_of_le (Nat.div_lt_self (by omega) (by omega)) (Nat.lt_succ_iff.mp h)
        exact ih (n / 10) hdiv c h1
      · simp only [List.mem_singleton] at h1
        subst h1
        exact digitChar_isDigit (Nat.mod_lt n (by omega))

theorem natDecimalAux_ne_nil : ∀ fuel n, n < fuel → natDecimalAux fuel n ≠ [] := by
  intro fuel
  induction fuel with
  | zero => intro n h; exact absurd h (Nat.not_lt_zero n)
  | succ fuel _ =>
    intro n _
    simp only [natDecimalAux]
    split
    · simp
    · simp

theorem digitsVal_natDecimalAux : ∀ fuel n, n < fuel → digitsVal (natDecimalAux fuel n) = n := by
  intro fuel
  induction fuel with
  | zero => intro n h; exact absurd h (Nat.not_lt_zero n)
  | succ fuel ih =>
    intro n h
    simp only [natDecimalAux]
    split
    · next h10 =>
      simp only [digitsVal, List.foldl_cons, List.foldl_nil]
      rw [digitChar_toNat h10]
      omega
    · next h10 =>
      have hdiv : n / 10 < fuel :=
        Nat.lt_of_lt_of_le (Nat.div_lt_self (by omega) (by omega)) (Nat.lt_succ_iff.mp h)
      simp only [digitsVal, List.foldl_append, List.foldl_cons, List.foldl_nil]
      have hx := ih (n / 10) hdiv
      simp only [digitsVal] at hx
      rw [hx, digitChar_toNat (Nat.mod_lt n (by omega))]
      omega

theorem natDecimal_digits (n : Nat) : ∀ c ∈ natDecimal n, c.isDigit = true :=
  natDecimalAux_digits (n + 1) n (Nat.lt_succ_self n)

theorem natDecimal_ne_nil (n : Nat) : natDecimal n ≠ [] :=
  natDecimalAux_ne_nil (n + 1) n (Nat.lt_succ_self n)

theorem digitsVal_natDecimal (n : Nat) : digitsVal (natDecimal n) = n :=
  digitsVal_natDecimalAux (n + 1) n (Nat.lt_succ_self n)

theorem scanU_digits (T rest : List Char) (hT : T ≠ [])
    (hdig : ∀ c ∈ T, c.isDigit = true) :
    scanU (T ++ ':' :: rest) = some (digitsVal T, ':' :: rest) := by
  obtain ⟨a, as, rfl⟩ := List.exists_cons_of_ne_nil hT
  have ha := hdig a (List.mem_cons_self a as)
  have h1 : isSpace a = false := digit_not_isSpace ha
  unfold scanU
  rw [show ((a :: as) ++ ':' :: rest) = a :: (as ++ ':' :: rest) from rfl]
  rw [List.dropWhile_cons, if_neg (by simp [h1])]
  simp only []
  rw [if_neg (isDigit_ne_plus ha), if_neg (isDigit_ne_minus ha)]
  unfold scanDigits
  rw [show a :: (as ++ ':' :: rest) = (a :: as) ++ ':' :: rest from rfl]
  rw [takeWhile_append_stop _ ':' _ hdig (by decide),
    dropWhile_append_stop _ ':' _ hdig (by decide)]
  rw [if_neg hT]
  simp [scanUVal]

/-- Claim C1: the claim says that when client C is the sole member of
session S, a LEAVE_SESS frame with empty payload clears the current
session, removes S from the session registry, and makes a later JOIN of
S fail with JN_NAK.  Evaluating the code at that input: the session is
cleared and "Left session" is sent, but remove_session_if_empty is
called on the empty payload instead of on "S", so "S" survives in the
session registry and the subsequent JOIN succeeds with JN_ACK. -/
theorem leave_sess_sole_member_session_survives :
    processMessage { clients := [{ sockfd := 1, id := "ken", session := "S" }], sessions := ["S"] }
        1 (leaveFrame "ken")
      = ({ clients := [{ sockfd := 1, id := "ken", session := "" }], sessions := ["S"] },
         [(1, serverReply LEAVE_SESS "Left session")])
    ∧ processMessage { clients := [{ sockfd := 1, id := "ken", session := "" }], sessions := ["S"] }
        1 { type := JOIN, size := 1, source := "ken", data := "S" }
      = ({ clients := [{ sockfd := 1, id := "ken", session := "S" }], sessions := ["S"] },
         [(1, serverReply JN_ACK "Joined session")]) := by
  exact ⟨rfl, rfl⟩

/-- Claim C2: the claim says that an EXIT frame from the sole member of
session S clears the current session and removes S before echoing EXIT
and ending the loop.  Evaluating the code at that input: the session is
cleared, EXIT is echoed, and the loop ends, but the EXIT case clears
client->session before calling remove_session_if_empty on it, so the
call receives the empty string and "S" survives in the session
registry. -/
theorem exit_sole_member_session_survives :
    processMessage { clients := [{ sockfd := 1, id := "ken", session := "S" }], sessions := ["S"] }
        1 (exitFrame "ken")
      = ({ clients := [{ sockfd := 1, id := "ken", session := "" }], sessions := ["S"] },
         [(1, serverReply EXIT "")])
    ∧ handleLine { clients := [{ sockfd := 1, id := "ken", session := "S" }], sessions := ["S"] }
        1 ("4:0:ken:").data
      = ({ clients := [{ sockfd := 1, id := "ken", session := "" }], sessions := ["S"] },
         [(1, serverReply EXIT "")], false) := by
  exact ⟨rfl, rfl⟩

/-- Claim C3: a LOGIN whose identifier is already held by a registered
client is answered LO_NAK with no registration and no state change, and
the no-duplicate-identifier invariant is preserved by every frame, by
connection setup (add_client), and by connection teardown
(remove_client). -/
theorem login_uniqueness_invariant :
    (∀ s fd msg, msg.type = LOGIN → is_already_logged_in s msg.source = true →
       (findClient s fd).isSome →
       processMessage s fd msg
         = (s, [(fd, serverReply LO_NAK "Invalid credentials or already logged in")]))
    ∧ (∀ s fd msg, uniqueLoggedIn s → uniqueLoggedIn (processMessage s fd msg).1)
    ∧ (∀ s fd, uniqueLoggedIn s → uniqueLoggedIn (connectClient s fd))
    ∧ (∀ s fd, uniqueLoggedIn s → uniqueLoggedIn (disconnectClient s fd)) := by
  refine ⟨?_, ?_, ?_, ?_⟩
  · intro s fd msg ht hlog hsome
    obtain ⟨c, hc⟩ := Option.isSome_iff_exists.mp hsome
    simp only [processMessage]
    rw [hc, ht]
    simp [LOGIN, hlog]
  · intro s fd msg hu
    simp only [processMessage]
    cases hc : findClient s fd with
    | none => exact hu
    | some c =>
      by_cases h1 : msg.type = LOGIN
      · simp only [if_pos h1]
        by_cases h2 : (is_valid_user msg.source msg.data && !is_already_logged_in s msg.source) = true
        · simp only [if_pos h2]
          have hal : ∀ b ∈ s.clients, b.id ≠ msg.source := by
            have h3 := ((Bool.and_eq_true _ _).mp h2).2
            simp only [Bool.not_eq_true', is_already_logged_in, List.any_eq_false,
              beq_iff_eq] at h3
            exact h3
          exact pairwise_login_update s.clients fd msg.source hal hu
        · simp only [if_neg h2]
          exact hu
      · by_cases h3 : msg.type = EXIT
        · simp only [if_neg h1, if_pos h3]
          by_cases h4 : c.session ≠ ""
          · simp only [if_pos h4]
            show uniqueLoggedIn (remove_session_if_empty _ _)
            unfold uniqueLoggedIn
            rw [clients_remove_session_if_empty]
            exact pairwise_updateClient_id_pres _ _ _ (fun _ => rfl) hu
          · simp only [if_neg h4]
            exact hu
        · by_cases h5 : msg.type = JOIN
          · simp only [if_neg h1, if_neg h3, if_pos h5]
            by_cases h6 : find_session s msg.data = false
            · simp only [if_pos h6]
              exact hu
            · simp only [if_neg h6]
              by_cases h7 : c.session ≠ ""
              · simp only [if_pos h7]
                exact hu
              · simp only [if_neg h7]
                exact pairwise_updateClient_id_pres _ _ _ (fun _ => rfl) hu
          · by_cases h8 : msg.type = NEW_SESS
            · simp only [if_neg h1, if_neg h3, if_neg h5, if_pos h8]
              by_cases h9 : c.session ≠ ""
              · simp only [if_pos h9]
                exact hu
              · simp only [if_neg h9]
                by_cases h10 : find_session s msg.data
                · simp only [if_pos h10]
                  exact hu
                · simp only [if_neg h10]
                  exact pairwise_updateClient_id_pres _ _ _ (fun _ => rfl) hu
            · by_cases h11 : msg.type = LEAVE_SESS
              · simp only [if_neg h1, if_neg h3, if_neg h5, if_neg h8, if_pos h11]
                by_cases h12 : c.session = ""
                · simp only [if_pos h12]
                  exact hu
                · simp only [if_neg h12]
                  show uniqueLoggedIn (remove_session_if_empty _ _)
                  unfold uniqueLoggedIn
                  rw [clients_remove_session_if_empty]
                  exact pairwise_updateClient_id_pres _ _ _ (fun _ => rfl) hu
              · by_cases h13 : msg.type = MESSAGE
                · simp only [if_neg h1, if_neg h3, if_neg h5, if_neg h8, if_neg h11, if_pos h13]
                  by_cases h14 : c.session ≠ ""
                  · simp only [if_pos h14]
                    exact hu
                  · simp only [if_neg h14]
                    exact hu
                · by_cases h15 : msg.type = QUERY <;>
                    simp only [if_neg h1, if_neg h3, if_neg h5, if_neg h8, if_neg h11,
                      if_neg h13, *, if_pos, if_neg] <;> exact hu
  · intro s fd hu
    exact List.pairwise_cons.mpr ⟨fun b _ => Or.inl rfl, hu⟩
  · intro s fd hu
    exact List.Pairwise.sublist (removeClientFd_sublist s.clients fd) hu

/-- Witness for claim C3 at a concrete state: "ken" is logged in on
connection 1; a second LOGIN as "ken" from connection 2 is refused with
LO_NAK and nothing changes; the invariant survives that frame, a fresh
connection, and a teardown. -/
theorem login_uniqueness_invariant_witness :
    (processMessage
        { clients := [{ sockfd := 2, id := "", session := "" },
                      { sockfd := 1, id := "ken", session := "" }], sessions := [] } 2
        { type := LOGIN, size := 5, source := "ken", data := "12345" }
      = ({ clients := [{ sockfd := 2, id := "", session := "" },
                       { sockfd := 1, id := "ken", session := "" }], sessions := [] },
         [(2, serverReply LO_NAK "Invalid credentials or already logged in")]))
    ∧ uniqueLoggedIn (processMessage
        { clients := [{ sockfd := 2, id := "", session := "" },
                      { sockfd := 1, id := "ken", session := "" }], sessions := [] } 2
        { type := LOGIN, size := 5, source := "ken", data := "12345" }).1
    ∧ uniqueLoggedIn (connectClient
        { clients := [{ sockfd := 2, id := "", session := "" },
                      { sockfd := 1, id := "ken", session := "" }], sessions := [] } 3)
    ∧ uniqueLoggedIn (disconnectClient
        { clients := [{ sockfd := 2, id := "", session := "" },
                      { sockfd := 1, id := "ken", session := "" }], sessions := [] } 1) :=
  ⟨login_uniqueness_invariant.1 _ 2 _ rfl (by decide) (by decide),
   login_uniqueness_invariant.2.1 _ 2 _ (by decide),
   login_uniqueness_invariant.2.2.1 _ 3 (by decide),
   login_uniqueness_invariant.2.2.2 _ 1 (by decide)⟩

/-- Claim C4: a client whose current session is non-empty has its
NEW_SESS request rejected with no state change at all: the reply is
NS_ACK whose payload is the rejection string "Already in a session",
which differs from "Session created". -/
theorem new_sess_rejected_when_in_session (s : ServerState) (fd : Nat) (c : Client)
    (msg : Message) (hc : findClient s fd = some c) (hs : c.session ≠ "")
    (ht : msg.type = NEW_SESS) :
    processMessage s fd msg = (s, [(fd, serverReply NS_ACK "Already in a session")])
    ∧ "Already in a session" ≠ "Session created" := by
  refine ⟨?_, by decide⟩
  simp only [processMessage, findClient] at hc ⊢
  rw [hc, ht]
  simp [LOGIN, EXIT, JOIN, NEW_SESS, hs]

/-- Witness for claim C4 at a concrete state: "ken" is in session "A"
and asks to create "B". -/
theorem new_sess_rejected_when_in_session_witness :
    findClient { clients := [{ sockfd := 1, id := "ken", session := "A" }], sessions := ["A"] } 1
        = some { sockfd := 1, id := "ken", session := "A" }
    ∧ (processMessage { clients := [{ sockfd := 1, id := "ken", session := "A" }], sessions := ["A"] }
          1 { type := NEW_SESS, size := 1, source := "ken", data := "B" }
        = ({ clients := [{ sockfd := 1, id := "ken", session := "A" }], sessions := ["A"] },
           [(1, serverReply NS_ACK "Already in a session")])
       ∧ "Already in a session" ≠ "Session created") :=
  ⟨rfl, new_sess_rejected_when_in_session _ 1 _ _ rfl (by decide) rfl⟩

/-- Claim C6: wire-codec round trip.  For any frame whose source is a
non-empty string free of the separator and of newlines, and whose
payload is free of newlines (it may contain separators), parsing the
encoded line "type:size:source:payload" after the read loop strips the
newline recovers exactly the original type, size, source and payload,
the payload taken verbatim after the third separator. -/
theorem wire_roundtrip (m : Message) (hsrc : m.source ≠ "")
    (hcol : ':' ∉ m.source.data) (hnl : '\n' ∉ m.source.data) (hdnl : '\n' ∉ m.data.data) :
    parseFrame (readLineBuf (encodeLine m)) = some m := by
  have hSne : m.source.data ≠ [] := fun h0 => hsrc (String.ext (h0.trans rfl))
  have hSall : ∀ x ∈ m.source.data, (decide (x ≠ ':')) = true := by
    intro x hx
    simp only [decide_eq_true_eq]
    exact fun hq => hcol (hq ▸ hx)
  have hDall : ∀ x ∈ m.data.data, (decide (x ≠ '\n')) = true := by
    intro x hx
    simp only [decide_eq_true_eq]
    exact fun hq => hdnl (hq ▸ hx)
  have hbuf : readLineBuf (encodeLine m)
      = natDecimal m.type
          ++ ':' :: (natDecimal m.size ++ ':' :: (m.source.data ++ ':' :: m.data.data)) := by
    show (encodeLine m).takeWhile (fun c => c ≠ '\n') = _
    have hform : encodeLine m
        = (natDecimal m.type
            ++ ':' :: (natDecimal m.size ++ ':' :: (m.source.data ++ ':' :: m.data.data)))
          ++ '\n' :: [] := by
      simp [encodeLine, List.append_assoc]
    rw [hform]
    apply takeWhile_append_stop
    · intro x hx
      simp only [List.mem_append, List.mem_cons, decide_eq_true_eq] at hx ⊢
      rcases hx with h1 | rfl | h1 | rfl | h1 | rfl | h1
      · exact isDigit_ne_newline (natDecimal_digits m.type x h1)
      · decide
      · exact isDigit_ne_newline (natDecimal_digits m.size x h1)
      · decide
      · exact fun hq => hnl (hq ▸ h1)
      · decide
      · exact fun hq => hdnl (hq ▸ h1)
    · decide
  rw [hbuf]
  simp only [parseFrame]
  rw [scanU_digits _ _ (natDecimal_ne_nil m.type) (natDecimal_digits m.type)]
  simp only []
  rw [if_neg (by decide : ¬(':' ≠ ':'))]
  rw [scanU_digits _ _ (natDecimal_ne_nil m.size) (natDecimal_digits m.size)]
  simp only []
  rw [if_neg (by decide : ¬(':' ≠ ':'))]
  rw [takeWhile_append_stop _ ':' _ hSall (by decide)]
  rw [dropWhile_append_stop _ ':' _ hSall (by decide)]
  rw [if_neg hSne]
  simp only []
  rw [takeWhile_eq_self_of_all _ hDall]
  rw [digitsVal_natDecimal, digitsVal_natDecimal]

/-- Witness for claim C6: a concrete MESSAGE frame whose payload itself
contains the separator survives the round trip. -/
theorem wire_roundtrip_witness :
    (("ken" : String) ≠ "" ∧ ':' ∉ ("ken" : String).data ∧ '\n' ∉ ("ken" : String).data
      ∧ '\n' ∉ ("hi:there" : String).data)
    ∧ parseFrame (readLineBuf (encodeLine
          { type := 11, size := 8, source := "ken", data := "hi:there" }))
        = some { type := 11, size := 8, source := "ken", data := "hi:there" } :=
  ⟨⟨by decide, by decide, by decide, by decide⟩,
   wire_roundtrip { type := 11, size := 8, source := "ken", data := "hi:there" }
     (by decide) (by decide) (by decide) (by decide)⟩

/-- Claim C7: a received line that reaches sscanf (read_line returned a
non-empty buffer) and cannot be split into at least three fields is
discarded: the registries are untouched, nothing is written, and the
read loop continues to the next frame.  An empty read is not a frame: it
fails the while guard and ends the loop instead, which is the
disconnect path the spec carves out of this claim. -/
theorem malformed_frame_discarded (s : ServerState) (fd : Nat) (buf : List Char)
    (hne : buf ≠ []) (h : parseFrame buf = none) :
    handleLine s fd buf = (s, [], true) := by
  simp [handleLine, hne, h]

/-- Witness for claim C7: the line "garbage" has no colon-delimited
fields and is discarded by an arbitrary concrete state. -/
theorem malformed_frame_discarded_witness :
    ("garbage").data ≠ []
    ∧ parseFrame ("garbage").data = none
    ∧ handleLine { clients := [{ sockfd := 1, id := "ken", session := "S" }], sessions := ["S"] }
        1 ("garbage").data
      = ({ clients := [{ sockfd := 1, id := "ken", session := "S" }], sessions := ["S"] }, [], true) :=
  ⟨by decide, rfl, malformed_frame_discarded _ 1 _ (by decide) rfl⟩

/-- Claim C5: a MESSAGE frame from a logged-in client X in session S
changes no registry state, and the frame is written to exactly those
registered clients whose current session equals S and whose identifier
differs from X, in registry order — so every other member of S receives
it and X never does. -/
theorem message_broadcast_excludes_sender (s : ServerState) (fd : Nat) (c : Client)
    (msg : Message) (hc : findClient s fd = some c) (_hid : c.id ≠ "") (hs : c.session ≠ "")
    (ht : msg.type = MESSAGE) :
    (processMessage s fd msg).1 = s
    ∧ (processMessage s fd msg).2
        = (s.clients.filter (fun d => d.session == c.session && d.id != c.id)).map
            (fun d => (d.sockfd, msg)) := by
  simp only [processMessage]
  rw [hc, ht]
  simp [LOGIN, EXIT, JOIN, NEW_SESS, LEAVE_SESS, MESSAGE, hs, broadcast_eq_filter]

/-- Witness for claim C5: "ken" in session "S" sends a message; "andy"
(same session) is the only recipient; neither "ken" himself nor the
member of session "T" receives it. -/
theorem message_broadcast_excludes_sender_witness :
    findClient { clients := [{ sockfd := 1, id := "ken", session := "S" },
                             { sockfd := 2, id := "andy", session := "S" },
                             { sockfd := 3, id := "x", session := "T" }], sessions := ["S", "T"] } 1
        = some { sockfd := 1, id := "ken", session := "S" }
    ∧ ((processMessage { clients := [{ sockfd := 1, id := "ken", session := "S" },
                                     { sockfd := 2, id := "andy", session := "S" },
                                     { sockfd := 3, id := "x", session := "T" }],
                         sessions := ["S", "T"] } 1
          { type := MESSAGE, size := 5, source := "ken", data := "hello" }).1
        = { clients := [{ sockfd := 1, id := "ken", session := "S" },
                        { sockfd := 2, id := "andy", session := "S" },
                        { sockfd := 3, id := "x", session := "T" }], sessions := ["S", "T"] }
       ∧ (processMessage { clients := [{ sockfd := 1, id := "ken", session := "S" },
                                       { sockfd := 2, id := "andy", session := "S" },
                                       { sockfd := 3, id := "x", session := "T" }],
                           sessions := ["S", "T"] } 1
            { type := MESSAGE, size := 5, source := "ken", data := "hello" }).2
          = [(2, { type := MESSAGE, size := 5, source := "ken", data := "hello" })]) := by
  refine ⟨rfl, ?_⟩
  have h := message_broadcast_excludes_sender
    { clients := [{ sockfd := 1, id := "ken", session := "S" },
                  { sockfd := 2, id := "andy", session := "S" },
                  { sockfd := 3, id := "x", session := "T" }], sessions := ["S", "T"] } 1
    { sockfd := 1, id := "ken", session := "S" }
    { type := MESSAGE, size := 5, source := "ken", data := "hello" } rfl
    (by decide) (by decide) rfl
  exact ⟨h.1, by rw [h.2]; rfl⟩

/-- Claim C9, amended: a ClientConnection enters the Client Registry at
connection time (add_client in handle_client, with an empty identifier
and no session, before any LOGIN); processing a frame never adds or
removes a registry node (a successful LOGIN only overwrites the node's
identifier); nodes leave only through remove_client at read-loop
teardown; and a QUERY is answered with a QU_ACK listing built from every
registered node, logged in or not. -/
theorem registry_lifecycle :
    (∀ s fd, (connectClient s fd).clients
        = { sockfd := fd, id := "", session := "" } :: s.clients)
    ∧ (∀ s fd msg, (processMessage s fd msg).1.clients.length = s.clients.length)
    ∧ (∀ s fd, (disconnectClient s fd).clients.Sublist s.clients)
    ∧ (∀ s fd msg, (findClient s fd).isSome → msg.type = QUERY →
        processMessage s fd msg = (s, [(fd, serverReply QU_ACK (queryData s))])) := by
  refine ⟨fun s fd => rfl, ?_, fun s fd => removeClientFd_sublist s.clients fd, ?_⟩
  · intro s fd msg
    simp only [processMessage]
    cases hc : findClient s fd with
    | none => rfl
    | some c =>
      by_cases h1 : msg.type = LOGIN
      · simp only [if_pos h1]
        by_cases h2 : (is_valid_user msg.source msg.data && !is_already_logged_in s msg.source) = true
        · simp only [if_pos h2]
          exact updateClient_length s.clients fd _
        · simp only [if_neg h2]
      · by_cases h3 : msg.type = EXIT
        · simp only [if_neg h1, if_pos h3]
          by_cases h4 : c.session ≠ ""
          · simp only [if_pos h4]
            show (remove_session_if_empty _ _).clients.length = _
            rw [clients_remove_session_if_empty]
            exact updateClient_length s.clients fd _
          · simp only [if_neg h4]
        · by_cases h5 : msg.type = JOIN
          · simp only [if_neg h1, if_neg h3, if_pos h5]
            by_cases h6 : find_session s msg.data = false
            · simp only [if_pos h6]
            · simp only [if_neg h6]
              by_cases h7 : c.session ≠ ""
              · simp only [if_pos h7]
              · simp only [if_neg h7]
                exact updateClient_length s.clients fd _
          · by_cases h8 : msg.type = NEW_SESS
            · simp only [if_neg h1, if_neg h3, if_neg h5, if_pos h8]
              by_cases h9 : c.session ≠ ""
              · simp only [if_pos h9]
              · simp only [if_neg h9]
                by_cases h10 : find_session s msg.data
                · simp only [if_pos h10]
                · simp only [if_neg h10]
                  exact updateClient_length s.clients fd _
            · by_cases h11 : msg.type = LEAVE_SESS
              · simp only [if_neg h1, if_neg h3, if_neg h5, if_neg h8, if_pos h11]
                by_cases h12 : c.session = ""
                · simp only [if_pos h12]
                · simp only [if_neg h12]
                  show (remove_session_if_empty _ _).clients.length = _
                  rw [clients_remove_session_if_empty]
                  exact updateClient_length s.clients fd _
              · by_cases h13 : msg.type = MESSAGE
                · simp only [if_neg h1, if_neg h3, if_neg h5, if_neg h8, if_neg h11, if_pos h13]
                  by_cases h14 : c.session ≠ ""
                  · simp only [if_pos h14]
                  · simp only [if_neg h14]
                · by_cases h15 : msg.type = QUERY
                  · simp only [if_neg h1, if_neg h3, if_neg h5, if_neg h8, if_neg h11,
                      if_neg h13, if_pos h15]
                  · simp only [if_neg h1, if_neg h3, if_neg h5, if_neg h8, if_neg h11,
                      if_neg h13, if_neg h15]
  · intro s fd msg hsome ht
    obtain ⟨c, hc⟩ := Option.isSome_iff_exists.mp hsome
    simp only [processMessage]
    rw [hc, ht]
    simp [LOGIN, EXIT, JOIN, NEW_SESS, LEAVE_SESS, MESSAGE, QUERY]

/-- Witness for claim C9 amended: concrete frame processing preserves the
registry size and a QUERY from a registered connection returns the full
listing. -/
theorem registry_lifecycle_witness :
    (processMessage { clients := [{ sockfd := 1, id := "ken", session := "" }], sessions := [] } 1
        { type := QUERY, size := 0, source := "ken", data := "" }).1.clients.length
      = ([{ sockfd := 1, id := "ken", session := "" }] : List Client).length
    ∧ processMessage { clients := [{ sockfd := 1, id := "ken", session := "" }], sessions := [] } 1
        { type := QUERY, size := 0, source := "ken", data := "" }
      = ({ clients := [{ sockfd := 1, id := "ken", session := "" }], sessions := [] },
         [(1, serverReply QU_ACK
            (queryData { clients := [{ sockfd := 1, id := "ken", session := "" }],
                         sessions := [] }))]) :=
  ⟨registry_lifecycle.2.1 _ 1 _,
   registry_lifecycle.2.2.2 _ 1 _ (by decide) rfl⟩

/-- Claim C8: NEW_SESS is always answered with an NS_ACK whose payload is
"Session created" exactly when the request succeeded (the session was
created and set as the requesting client's current session), and with a
different rejection string otherwise; on the client, an NS_ACK always
clears pending_session and promotes it to current_session exactly when
the payload equals "Session created", with the other globals untouched. -/
theorem ns_ack_payload_protocol :
    (∀ s fd c msg, findClient s fd = some c → msg.type = NEW_SESS →
      ∃ d, (processMessage s fd msg).2 = [(fd, serverReply NS_ACK d)]
        ∧ ((d = "Session created") ↔ (c.session = "" ∧ find_session s msg.data = false))
        ∧ ((c.session = "" ∧ find_session s msg.data = false) →
            (processMessage s fd msg).1
              = { clients := updateClient s.clients fd (fun e => { e with session := msg.data }),
                  sessions := msg.data :: s.sessions })
        ∧ (¬(c.session = "" ∧ find_session s msg.data = false) →
            (processMessage s fd msg).1 = s))
    ∧ (∀ st msg, msg.type = NS_ACK →
        (receive_step st msg).pending_session = ""
        ∧ (receive_step st msg).current_session
            = (if msg.data = "Session created" then st.pending_session else st.current_session)
        ∧ (receive_step st msg).loggedIn = st.loggedIn
        ∧ (receive_step st msg).client_id = st.client_id) := by
  constructor
  · intro s fd c msg hc ht
    simp only [processMessage]
    rw [hc, ht]
    by_cases h1 : c.session ≠ ""
    · refine ⟨"Already in a session", ?_⟩
      simp [LOGIN, EXIT, JOIN, NEW_SESS, h1]
    · push_neg at h1
      by_cases h2 : find_session s msg.data
      · refine ⟨"Session already exists", ?_⟩
        simp [LOGIN, EXIT, JOIN, NEW_SESS, h1, h2]
      · refine ⟨"Session created", ?_⟩
        simp [LOGIN, EXIT, JOIN, NEW_SESS, h1, h2]
  · intro st msg ht
    rw [receive_step, ht]
    by_cases h : msg.data = "Session created" <;>
      simp [JN_ACK, JN_NAK, NS_ACK, h]

/-- Witness for claim C8: creating "S" from a fresh state succeeds with
payload "Session created", and the client promotes its pending session
on that payload. -/
theorem ns_ack_payload_protocol_witness :
    (∃ d, (processMessage { clients := [{ sockfd := 1, id := "ken", session := "" }],
                            sessions := [] } 1
              { type := NEW_SESS, size := 1, source := "ken", data := "S" }).2
            = [(1, serverReply NS_ACK d)]
        ∧ ((d = "Session created")
            ↔ (({ sockfd := 1, id := "ken", session := "" } : Client).session = ""
               ∧ find_session { clients := [{ sockfd := 1, id := "ken", session := "" }],
                                sessions := [] } "S" = false))
        ∧ ((({ sockfd := 1, id := "ken", session := "" } : Client).session = ""
            ∧ find_session { clients := [{ sockfd := 1, id := "ken", session := "" }],
                             sessions := [] } "S" = false) →
            (processMessage { clients := [{ sockfd := 1, id := "ken", session := "" }],
                              sessions := [] } 1
                { type := NEW_SESS, size := 1, source := "ken", data := "S" }).1
              = { clients := updateClient [{ sockfd := 1, id := "ken", session := "" }] 1
                    (fun e => { e with session := "S" }),
                  sessions := ["S"] })
        ∧ (¬(({ sockfd := 1, id := "ken", session := "" } : Client).session = ""
             ∧ find_session { clients := [{ sockfd := 1, id := "ken", session := "" }],
                              sessions := [] } "S" = false) →
            (processMessage { clients := [{ sockfd := 1, id := "ken", session := "" }],
                              sessions := [] } 1
                { type := NEW_SESS, size := 1, source := "ken", data := "S" }).1
              = { clients := [{ sockfd := 1, id := "ken", session := "" }], sessions := [] }))
    ∧ ((receive_step { loggedIn := true, current_session := "", pending_session := "S",
                       client_id := "ken" }
          { type := NS_ACK, size := 15, source := "server", data := "Session created" }).pending_session = ""
       ∧ (receive_step { loggedIn := true, current_session := "", pending_session := "S",
                         client_id := "ken" }
            { type := NS_ACK, size := 15, source := "server", data := "Session created" }).current_session
          = (if ("Session created" : String) = "Session created" then "S" else "")
       ∧ (receive_step { loggedIn := true, current_session := "", pending_session := "S",
                         client_id := "ken" }
            { type := NS_ACK, size := 15, source := "server", data := "Session created" }).loggedIn = true
       ∧ (receive_step { loggedIn := true, current_session := "", pending_session := "S",
                         client_id := "ken" }
            { type := NS_ACK, size := 15, source := "server", data := "Session created" }).client_id = "ken") :=
  ⟨ns_ack_payload_protocol.1 _ 1 _ _ rfl rfl,
   ns_ack_payload_protocol.2 _ _ rfl⟩

theorem setId_clients (s : ServerState) (fd : Nat) (i : String) :
    (setId s fd i).clients = updateClient s.clients fd (fun e => { e with id := i }) := rfl

theorem setId_sessions (s : ServerState) (fd : Nat) (i : String) :
    (setId s fd i).sessions = s.sessions := rfl

theorem find_session_setId (s : ServerState) (fd : Nat) (i : String) (d : String) :
    find_session (setId s fd i) d = find_session s d := rfl

/-- Claim C10: no operation except LOGIN is gated on authentication.  For
a connection whose node has the empty identifier (it never completed a
LOGIN), JOIN, NEW_SESS and LEAVE_SESS frames are processed exactly as
they would be after a login — same replies, same registry transitions,
differing only in the identifier field the login would have written —
and QUERY still returns the QU_ACK listing while MESSAGE still
broadcasts to the session peers; no branch emits an error for the
missing login. -/
theorem processing_ignores_login (s : ServerState) (fd : Nat) (c : Client) (i : String)
    (msg : Message) (hc : findClient s fd = some c) (_hid : c.id = "") :
    ((msg.type = JOIN ∨ msg.type = NEW_SESS ∨ msg.type = LEAVE_SESS) →
        processMessage (setId s fd i) fd msg
          = (setId (processMessage s fd msg).1 fd i, (processMessage s fd msg).2))
    ∧ (msg.type = QUERY →
        processMessage s fd msg = (s, [(fd, serverReply QU_ACK (queryData s))]))
    ∧ (msg.type = MESSAGE →
        (processMessage s fd msg).1 = s
        ∧ (processMessage s fd msg).2
            = (if c.session = "" then []
               else (s.clients.filter (fun d => d.session == c.session && d.id != c.id)).map
                      (fun d => (d.sockfd, msg)))) := by
  have hc2 := findClient_setId s fd i c hc
  have hswap : ∀ d : String,
      (updateClient (updateClient s.clients fd (fun e => { e with id := i })) fd
          (fun e => { e with session := d }))
        = (updateClient (updateClient s.clients fd (fun e => { e with session := d })) fd
          (fun e => { e with id := i })) := by
    intro d
    rw [updateClient_updateClient s.clients fd (fun e => { e with id := i })
        (fun e => { e with session := d }) (fun e => rfl),
      updateClient_updateClient s.clients fd (fun e => { e with session := d })
        (fun e => { e with id := i }) (fun e => rfl)]
  refine ⟨?_, ?_, ?_⟩
  · rintro (ht | ht | ht)
    · simp only [processMessage]
      rw [hc, hc2, ht]
      by_cases h6 : find_session s msg.data = false
      · simp [LOGIN, EXIT, JOIN, find_session_setId, h6]
      · by_cases h7 : c.session ≠ ""
        · simp [LOGIN, EXIT, JOIN, find_session_setId, h6, h7]
        · simp only [LOGIN, EXIT, JOIN, find_session_setId, h6, h7]
          simp [setId, h6, h7, hswap msg.data]
    · simp only [processMessage]
      rw [hc, hc2, ht]
      by_cases h7 : c.session ≠ ""
      · simp [LOGIN, EXIT, JOIN, NEW_SESS, h7]
      · by_cases h6 : find_session s msg.data
        · simp [LOGIN, EXIT, JOIN, NEW_SESS, find_session_setId, h6, h7]
        · simp only [LOGIN, EXIT, JOIN, NEW_SESS, find_session_setId, h6, h7]
          simp [setId, h6, h7, hswap msg.data]
    · simp only [processMessage]
      rw [hc, hc2, ht]
      by_cases h7 : c.session = ""
      · simp [LOGIN, EXIT, JOIN, NEW_SESS, LEAVE_SESS, h7]
      · simp only [LOGIN, EXIT, JOIN, NEW_SESS, LEAVE_SESS]
        simp only [setId_clients, setId_sessions]
        simp [h7, setId, remove_after_clear_setId s fd i msg.data]
  · intro ht
    simp only [processMessage]
    rw [hc, ht]
    simp [LOGIN, EXIT, JOIN, NEW_SESS, LEAVE_SESS, MESSAGE, QUERY]
  · intro ht
    simp only [processMessage]
    rw [hc, ht]
    by_cases h7 : c.session = ""
    · simp [LOGIN, EXIT, JOIN, NEW_SESS, LEAVE_SESS, MESSAGE, h7]
    · simp [LOGIN, EXIT, JOIN, NEW_SESS, LEAVE_SESS, MESSAGE, h7, broadcast_eq_filter]

/-- Witness for claim C10: a connection that never logged in (empty
identifier) joins session "S"; the processing agrees with what the same
frame would do after logging in as "ken", up to the identifier field. -/
theorem processing_ignores_login_witness :
    findClient { clients := [{ sockfd := 1, id := "", session := "" }], sessions := ["S"] } 1
        = some { sockfd := 1, id := "", session := "" }
    ∧ processMessage
        (setId { clients := [{ sockfd := 1, id := "", session := "" }], sessions := ["S"] } 1 "ken")
        1 { type := JOIN, size := 1, source := "", data := "S" }
      = (setId (processMessage
            { clients := [{ sockfd := 1, id := "", session := "" }], sessions := ["S"] } 1
            { type := JOIN, size := 1, source := "", data := "S" }).1 1 "ken",
         (processMessage
            { clients := [{ sockfd := 1, id := "", session := "" }], sessions := ["S"] } 1
            { type := JOIN, size := 1, source := "", data := "S" }).2) :=
  ⟨rfl,
   (processing_ignores_login
      { clients := [{ sockfd := 1, id := "", session := "" }], sessions := ["S"] } 1
      { sockfd := 1, id := "", session := "" } "ken"
      { type := JOIN, size := 1, source := "", data := "S" } rfl rfl).1 (Or.inl rfl)⟩

/-- Claim C9, counterexample: handle_client calls add_client before any
frame is read, so a connection that never sent LOGIN is already in the
Client Registry with an empty identifier, and a QUERY lists it in the
QU_ACK payload — yet the empty identifier can never complete a
successful LOGIN (no credential-table entry has an empty id). -/
theorem query_lists_unauthenticated_client :
    (connectClient { clients := [], sessions := [] } 1).clients
        = [{ sockfd := 1, id := "", session := "" }]
    ∧ (processMessage (connectClient { clients := [], sessions := [] } 1) 1
          { type := QUERY, size := 0, source := "a", data := "" }).2
        = [(1, serverReply QU_ACK "Clients:  (session: None),  Sessions: ")]
    ∧ allowed_users.all (fun u => u.1 != "") = true := by
  exact ⟨rfl, rfl, rfl⟩

end Chat
